import Mathlib

/-!
Verification development for a multi-session WhatsApp HTTP gateway
(main source: src/unnamed/part_002; the older close handler variant is in
src/unnamed/part_001).  The JavaScript string primitives used by the code
(toLowerCase, trim, replace with character-class regexes, split) are embedded
as structural functions over the character list of a string, so that every
definition evaluates by kernel reduction.  The regular-expression engine and
the outbound HTTP client are external collaborators of the program; they are
modelled as oracle parameters (RegexEngine, Callback) that each theorem
quantifies over or instantiates.
-/

/-- ASCII case folding of one character, as performed by the JavaScript
toLowerCase on the ASCII range used by the rules of this program. -/
def lowerChar (c : Char) : Char :=
  if 65 ≤ c.toNat ∧ c.toNat ≤ 90 then Char.ofNat (c.toNat + 32) else c

/-- Embedding of the JavaScript String.prototype.toLowerCase. -/
def jsToLower (s : String) : String :=
  ⟨s.data.map lowerChar⟩

/-- Whitespace characters removed by the JavaScript String.prototype.trim. -/
def jsWhitespace (c : Char) : Bool :=
  c == ' ' || c == '\t' || c == '\n' || c == '\r' || c == '\x0b' || c == '\x0c'

/-- Drop leading and trailing whitespace from a character list. -/
def trimList (l : List Char) : List Char :=
  ((l.dropWhile jsWhitespace).reverse.dropWhile jsWhitespace).reverse

/-- Embedding of the JavaScript String.prototype.trim. -/
def jsTrim (s : String) : String :=
  ⟨trimList s.data⟩

/-- Characters kept by the replacement regex [^a-z0-9] with flags gi:
ASCII letters of either case and ASCII digits. -/
def isAlnumAscii (c : Char) : Bool :=
  (97 ≤ c.toNat && c.toNat ≤ 122) || (65 ≤ c.toNat && c.toNat ≤ 90) ||
    (48 ≤ c.toNat && c.toNat ≤ 57)

/-- Embedding of text.replace(/[^a-z0-9]/gi, ""): strip every character that
is not an ASCII letter or digit. -/
def stripNonAlnum (s : String) : String :=
  ⟨s.data.filter isAlnumAscii⟩

/-- Embedding of num.replace(/\D/g, ""): keep only ASCII digits. -/
def digitsOf (s : String) : String :=
  ⟨s.data.filter Char.isDigit⟩

/-- Split a character list at commas (JavaScript split with separator ","). -/
def splitCommaAux : List Char → List Char → List (List Char)
  | [], acc => [acc.reverse]
  | c :: rest, acc =>
      if c = ',' then acc.reverse :: splitCommaAux rest []
      else splitCommaAux rest (c :: acc)

/-- Embedding of the JavaScript String.prototype.split with separator ",". -/
def jsSplitComma (s : String) : List String :=
  (splitCommaAux s.data []).map (fun l => ⟨l⟩)

/-- formatNumber from src/unnamed/part_002 lines 42-46: strip every
non-digit; the number is valid iff the remainder matches the anchored regex
\d{10,15}, in which case the WhatsApp jid <digits>@s.whatsapp.net results. -/
def formatNumber (num : String) : Option String :=
  let clean := digitsOf num
  if 10 ≤ clean.length ∧ clean.length ≤ 15 ∧ clean.data.all Char.isDigit then
    some (clean ++ "@s.whatsapp.net")
  else
    none

/-- An auto reply rule {keyword, reply} (src/unnamed/part_002 line 279). -/
structure AutoReply where
  keyword : String
  reply : String
deriving DecidableEq

/-- A generic regex trigger {name, regex, callback_url}
(src/unnamed/part_002 lines 293-317). -/
structure RegexTrigger where
  name : String
  regex : String
  callback_url : String
deriving DecidableEq

/-- A pro regex trigger {name, regex, callback_url, target_number}, where
target_number is a comma separated allow list of phone numbers
(src/unnamed/part_002 lines 239-257). -/
structure ProTrigger where
  name : String
  regex : String
  callback_url : String
  target_number : String
deriving DecidableEq

/-- Oracle for the regular expression engine (an external collaborator):
compiles tells whether new RegExp(pattern, "i") succeeds, test embeds
regex.test(text), and firstMatch embeds text.match(regex)?.[0], the
first matched substring when one exists. -/
structure RegexEngine where
  compiles : String → Bool
  test : String → String → Bool
  firstMatch : String → String → Option String

/-- The JSON body posted to a callback url: {keyword, name, pattern}
(src/unnamed/part_002 lines 253-257 and 314-318). -/
structure CallbackPayload where
  keyword : Option String
  name : String
  pattern : String
deriving DecidableEq

/-- Oracle for axios.post plus the response normalisation
(typeof res.data === "string" ? res.data : JSON.stringify(res.data)):
on success it yields the final reply text, on any failure (timeout,
non 2xx, network error) it yields Except.error. -/
abbrev Callback := String → CallbackPayload → Except Unit String

/-- One outbound send performed by the messages.upsert handler, tagged by
the code site that performed it: the pro regex tier (lines 262 and 265),
the auto reply tier (line 284) or the generic regex tier
(lines 322 and 325-327) of src/unnamed/part_002. -/
inductive Act where
  | proReply (dest text : String)
  | autoReply (dest text : String)
  | genericReply (dest text : String)
deriving DecidableEq

/-- The allow list of a pro trigger: trigger.target_number.split(",")
.map(num => formatNumber(num.trim())).filter(Boolean)
(src/unnamed/part_002 lines 242-245). -/
def allowedNumbersOf (t : ProTrigger) : List String :=
  ((jsSplitComma t.target_number).map (fun n => formatNumber (jsTrim n))).filterMap
    (fun x => x)

/-- Fallback reply of the pro regex tier callback catch
(src/unnamed/part_002 line 265). -/
def proErrorText : String := "❌ Error processing your request."

/-- Fallback reply of the generic regex tier callback catch
(src/unnamed/part_002 line 326). -/
def genericErrorText : String := "❌ Error processing your request. Please try again."

/-- The payload posted for a firing pro trigger: keyword is
text.match(regex)?.[0] (src/unnamed/part_002 lines 250-257). -/
def proPayload (eng : RegexEngine) (text : String) (t : ProTrigger) : CallbackPayload :=
  { keyword := eng.firstMatch t.regex text, name := t.name, pattern := t.regex }

/-- The send performed for a firing pro trigger: the callback reply text on
success, the fixed fallback on failure (src/unnamed/part_002 lines 259-266). -/
def proActFor (eng : RegexEngine) (cb : Callback) (sender text : String)
    (t : ProTrigger) : Act :=
  match cb t.callback_url (proPayload eng text t) with
  | Except.ok replyText => Act.proReply sender replyText
  | Except.error _ => Act.proReply sender proErrorText

/-- The pro regex pass (src/unnamed/part_002 lines 238-273): walk the stored
triggers in order; skip a trigger whose pattern does not compile (the catch
around the loop body), skip a trigger whose allow list does not contain the
sender, and on the first trigger whose pattern tests true send one reply and
break out of the loop. -/
def proPass (eng : RegexEngine) (cb : Callback) (sender text : String) :
    List ProTrigger → List Act
  | [] => []
  | t :: rest =>
    if eng.compiles t.regex then
      if (allowedNumbersOf t).contains sender then
        if eng.test t.regex text then [proActFor eng cb sender text t]
        else proPass eng cb sender text rest
      else proPass eng cb sender text rest
    else proPass eng cb sender text rest

/-- Predicate: this pro trigger fires for this sender and text, in the sense
of the loop of src/unnamed/part_002 lines 238-273. -/
def proFires (eng : RegexEngine) (sender text : String) (t : ProTrigger) : Bool :=
  eng.compiles t.regex && (allowedNumbersOf t).contains sender &&
    eng.test t.regex text

/-- The auto reply loop (src/unnamed/part_002 lines 279-287): compare the
cleaned message text with each cleaned stored keyword; on the first equality
send the stored reply and return from the handler. -/
def autoLoop (sender lowerText : String) : List AutoReply → Option Act
  | [] => none
  | r :: rest =>
    if stripNonAlnum lowerText = stripNonAlnum r.keyword then
      some (Act.autoReply sender r.reply)
    else autoLoop sender lowerText rest

/-- The auto reply pass (src/unnamed/part_002 lines 276-287); lowerText is
text.toLowerCase().trim(). -/
def autoPass (replies : List AutoReply) (sender text : String) : Option Act :=
  autoLoop sender (jsTrim (jsToLower text)) replies

/-- The matched trigger collection of the generic pass: triggers whose
pattern compiles and tests true (src/unnamed/part_002 lines 290-302). -/
def matchedTriggersOf (eng : RegexEngine) (triggers : List RegexTrigger)
    (text : String) : List RegexTrigger :=
  triggers.filter (fun t => eng.compiles t.regex && eng.test t.regex text)

/-- One step of matchedTriggers.reduce((a, b) =>
b.regex.length > a.regex.length ? b : a) (src/unnamed/part_002 lines 305-307). -/
def pickLonger (a b : RegexTrigger) : RegexTrigger :=
  if b.regex.length > a.regex.length then b else a

/-- JavaScript Array.prototype.reduce with pickLonger: none on the empty
list, otherwise a left fold from the first element. -/
def reduceBest : List RegexTrigger → Option RegexTrigger
  | [] => none
  | m :: ms => some (ms.foldl pickLonger m)

/-- The winning trigger of the generic pass, when any matched
(src/unnamed/part_002 lines 304-307). -/
def bestMatchOf (eng : RegexEngine) (triggers : List RegexTrigger)
    (text : String) : Option RegexTrigger :=
  reduceBest (matchedTriggersOf eng triggers text)

/-- Maximal regex pattern string length over a trigger list. -/
def maxRegexLen (l : List RegexTrigger) : Nat :=
  l.foldr (fun t n => max t.regex.length n) 0

/-- Whether an act was performed by the pro regex tier. -/
def isProAct : Act → Bool
  | Act.proReply _ _ => true
  | _ => false

/-- The generic regex trigger pass (src/unnamed/part_002 lines 289-330):
if any trigger matched, take the reduce winner, read match[0] (a null match
throws and lands in the catch), post the callback and send its reply text,
or send the fixed fallback from the catch on any failure. -/
def genericPass (eng : RegexEngine) (cb : Callback) (triggers : List RegexTrigger)
    (sender text : String) : List Act :=
  match bestMatchOf eng triggers text with
  | none => []
  | some best =>
    match eng.firstMatch best.regex text with
    | some keyword =>
      match cb best.callback_url
          { keyword := some keyword, name := best.name, pattern := best.regex } with
      | Except.ok replyText => [Act.genericReply sender replyText]
      | Except.error _ => [Act.genericReply sender genericErrorText]
    | none => [Act.genericReply sender genericErrorText]

/-- The whole messages.upsert dispatch for one inbound message with
extractable text (src/unnamed/part_002 lines 226-331): the pro pass runs
first; its break only leaves the pro loop, so the handler then runs the auto
reply pass, whose return (when it fires) skips the generic pass. -/
def dispatch (eng : RegexEngine) (cb : Callback) (pros : List ProTrigger)
    (replies : List AutoReply) (triggers : List RegexTrigger)
    (sender text : String) : List Act :=
  proPass eng cb sender text pros ++
    match autoPass replies sender text with
    | some a => [a]
    | none => genericPass eng cb triggers sender text

/-- Keyword normalisation performed when auto replies are stored:
r.keyword.toLowerCase() (src/unnamed/part_002 lines 493-496). -/
def formatAutoReply (r : AutoReply) : AutoReply :=
  { keyword := jsToLower r.keyword, reply := r.reply }

/-- The POST autoReplies route body formatting (src/unnamed/part_002
lines 493-498). -/
def postAutoReplies (rs : List AutoReply) : List AutoReply :=
  rs.map formatAutoReply

/-- The message side normalisation of the auto reply pass:
text.toLowerCase().trim() then strip non alphanumerics
(src/unnamed/part_002 lines 277-280). -/
def cleanMessageText (s : String) : String :=
  stripNonAlnum (jsTrim (jsToLower s))

/-- Regex engine oracle that accepts and matches everything, for concrete
instances. -/
def engAll : RegexEngine :=
  { compiles := fun _ => true, test := fun _ _ => true,
    firstMatch := fun _ _ => some "m" }

/-- Callback oracle that always succeeds with the reply "pong". -/
def cbOk : Callback := fun _ _ => Except.ok "pong"

/-- Callback oracle that always fails. -/
def cbFail : Callback := fun _ _ => Except.error ()

/-- A concrete sender jid. -/
def sender0 : String := "1234567890@s.whatsapp.net"

/-- A concrete pro trigger whose allow list normalises to [sender0]. -/
def proT0 : ProTrigger :=
  { name := "t1", regex := "hello", callback_url := "http://cb.example/hook",
    target_number := "1234567890" }

/-- A concrete stored auto reply whose keyword matches the text hello. -/
def ar0 : AutoReply := { keyword := "hello", reply := "hi there" }

/-- A concrete generic regex trigger. -/
def rt0 : RegexTrigger :=
  { name := "r1", regex := "ord", callback_url := "http://cb.example/r" }

/-- Association list lookup, embedding JavaScript object property read
obj[key] (undefined when absent). -/
def lookupK {α : Type} (l : List (String × α)) (k : String) : Option α :=
  (l.find? (fun p => p.1 == k)).map Prod.snd

/-- Association list key removal, embedding delete obj[key]. -/
def eraseK {α : Type} (l : List (String × α)) (k : String) : List (String × α) :=
  l.filter (fun p => p.1 != k)

/-- Association list key assignment, embedding obj[key] = v. -/
def setK {α : Type} (l : List (String × α)) (k : String) (v : α) :
    List (String × α) :=
  (k, v) :: eraseK l k

/-- Result of the verifyApiKey middleware: 401 or pass through. -/
inductive AuthResult where
  | unauthorized
  | authorized
deriving DecidableEq

/-- verifyApiKey (src/unnamed/part_002 lines 75-82).  The apiKey argument is
the value of the expression header("Authorization")?.replace("Bearer ", "")
|| query.apiKey: none embeds the JavaScript undefined.  The middleware
rejects with 401 when the key is falsy (absent or empty) or differs from
sessions[sessionId]; for an unregistered session that stored value is
undefined and can equal no string. -/
def verifyApiKey (sessions : List (String × String)) (sessionId : String)
    (apiKey : Option String) : AuthResult :=
  match apiKey with
  | none => AuthResult.unauthorized
  | some k =>
    if k = "" then AuthResult.unauthorized
    else
      match lookupK sessions sessionId with
      | none => AuthResult.unauthorized
      | some registered =>
        if registered = k then AuthResult.authorized else AuthResult.unauthorized

/-- Result of the POST sendText route body (past verifyApiKey). -/
inductive SendTextResult where
  | notConnected
  | invalidNumber
  | sent (jid text : String)
deriving DecidableEq

/-- POST sendText (src/unnamed/part_002 lines 446-463): 409 when the socket
is absent or not connected, 400 when formatNumber rejects the to field,
otherwise the text is sent to the normalised jid. -/
def sendTextHandler (isConnected : Bool) (toNumber text : String) : SendTextResult :=
  if !isConnected then SendTextResult.notConnected
  else
    match formatNumber toNumber with
    | none => SendTextResult.invalidNumber
    | some jid => SendTextResult.sent jid text

/-- The rule files persisted inside the auth directory of one session
(auth/<sessionId>/autoReplies.json, regexTriggers.json,
regexTriggersPro.json); none embeds a missing file. -/
structure AuthDirData where
  autoRepliesJson : Option (List AutoReply)
  regexTriggersJson : Option (List RegexTrigger)
  regexTriggersProJson : Option (List ProTrigger)
deriving DecidableEq

/-- The process wide mutable registries of src/unnamed/part_002: sessions
(sessionId to api key, lines 22-35), the socket map with its isConnected
flags (line 40), the three in memory rule registries (lines 37-39), and the
persisted per session auth directories on disk. -/
structure ServerState where
  sessions : List (String × String)
  socketsConn : List (String × Bool)
  autoRepliesMem : List (String × List AutoReply)
  regexTriggersMem : List (String × List RegexTrigger)
  regexTriggersProMem : List (String × List ProTrigger)
  authDirs : List (String × AuthDirData)
deriving DecidableEq

/-- DELETE session (src/unnamed/part_002 lines 676-693), past verifyApiKey:
log out and delete the socket entry, delete the sessions entry, and remove
the auth directory of the session from disk.  The route does not touch the
three in memory rule registries. -/
def deleteSessionRoute (st : ServerState) (sessionId : String) : ServerState :=
  { st with
    socketsConn := eraseK st.socketsConn sessionId
    sessions := eraseK st.sessions sessionId
    authDirs := eraseK st.authDirs sessionId }

/-- Result of the GET status route. -/
inductive StatusResult where
  | unauthorized
  | ok (connected : Bool)
deriving DecidableEq

/-- GET status (src/unnamed/part_002 lines 434-443): behind verifyApiKey;
reports sockets[sessionId]?.isConnected || false. -/
def statusRoute (st : ServerState) (sessionId : String) (apiKey : Option String) :
    StatusResult :=
  match verifyApiKey st.sessions sessionId apiKey with
  | AuthResult.unauthorized => StatusResult.unauthorized
  | AuthResult.authorized =>
    StatusResult.ok ((lookupK st.socketsConn sessionId).getD false)

/-- The connection open branch of the connection.update handler
(src/unnamed/part_002 lines 163-197): mark the socket connected and load the
three rule collections of the session from its auth directory, each
defaulting to the empty list when the file is absent. -/
def loadRulesOnOpen (st : ServerState) (sessionId : String) : ServerState :=
  let dir := lookupK st.authDirs sessionId
  { st with
    socketsConn := setK st.socketsConn sessionId true
    autoRepliesMem :=
      setK st.autoRepliesMem sessionId ((dir.bind AuthDirData.autoRepliesJson).getD [])
    regexTriggersMem :=
      setK st.regexTriggersMem sessionId ((dir.bind AuthDirData.regexTriggersJson).getD [])
    regexTriggersProMem :=
      setK st.regexTriggersProMem sessionId
        ((dir.bind AuthDirData.regexTriggersProJson).getD []) }

/-- The Baileys DisconnectReason.loggedOut status code. -/
def disconnectReasonLoggedOut : Nat := 401

/-- What one connection close does about credentials and retry: whether the
auth directory is removed, and the delay in milliseconds after which
connectSession is scheduled again (none when no reconnection is scheduled). -/
structure CloseBehavior where
  clearAuthData : Bool
  retryDelayMs : Option Nat
deriving DecidableEq

/-- The close branch of the connection.update handler of
src/unnamed/part_002 lines 199-222: reason is the Boom status code of the
last disconnect error (none embeds undefined).  A logged out or 401 reason
removes the auth directory and schedules a fresh connectSession after 3000
ms; every other reason schedules connectSession after 5000 ms reusing the
persisted credentials. -/
def closeHandlerComplete (reason : Option Nat) : CloseBehavior :=
  if reason = some disconnectReasonLoggedOut ∨ reason = some 401 then
    { clearAuthData := true, retryDelayMs := some 3000 }
  else
    { clearAuthData := false, retryDelayMs := some 5000 }

/-- The close branch of the connection.update handler of
src/unnamed/part_001 lines 137-148: a logged out reason only logs (no auth
removal, no reconnection is scheduled); every other reason schedules
connectSession after 5000 ms. -/
def closeHandlerLegacy (reason : Option Nat) : CloseBehavior :=
  if reason = some disconnectReasonLoggedOut then
    { clearAuthData := false, retryDelayMs := none }
  else
    { clearAuthData := false, retryDelayMs := some 5000 }

/-- A pro trigger whose allow list entries all fail phone normalisation. -/
def proT1 : ProTrigger :=
  { name := "t2", regex := "x", callback_url := "http://cb.example/h2",
    target_number := "123" }

/-- A concrete server state holding one connected session s1 with one rule
of each kind, in memory and on disk. -/
def st0 : ServerState :=
  { sessions := [("s1", "k1")]
    socketsConn := [("s1", true)]
    autoRepliesMem := [("s1", [ar0])]
    regexTriggersMem := [("s1", [rt0])]
    regexTriggersProMem := [("s1", [proT0])]
    authDirs := [("s1",
      { autoRepliesJson := some [ar0], regexTriggersJson := some [rt0],
        regexTriggersProJson := some [proT0] })] }

lemma toNat_ofNat_add32 (n : Nat) (h1 : 65 ≤ n) (h2 : n ≤ 90) :
    (Char.ofNat (n + 32)).toNat = n + 32 := by
  interval_cases n <;> decide

lemma lowerChar_idem (c : Char) : lowerChar (lowerChar c) = lowerChar c := by
  by_cases h : 65 ≤ c.toNat ∧ c.toNat ≤ 90
  · have h1 : lowerChar c = Char.ofNat (c.toNat + 32) := by
      unfold lowerChar; exact if_pos h
    have ht : (Char.ofNat (c.toNat + 32)).toNat = c.toNat + 32 :=
      toNat_ofNat_add32 c.toNat h.1 h.2
    rw [h1]
    unfold lowerChar
    rw [ht, if_neg (by omega)]
  · have h1 : lowerChar c = c := by
      unfold lowerChar; exact if_neg h
    rw [h1, h1]

lemma jsWhitespace_not_alnum (c : Char) (h : jsWhitespace c = true) :
    isAlnumAscii c = false := by
  simp only [jsWhitespace, Bool.or_eq_true, beq_iff_eq] at h
  rcases h with ((((rfl | rfl) | rfl) | rfl) | rfl) | rfl <;> rfl

lemma filter_dropWhile_of_imp {p q : Char → Bool}
    (h : ∀ c, q c = true → p c = false) :
    ∀ l : List Char, (l.dropWhile q).filter p = l.filter p := by
  intro l
  induction l with
  | nil => rfl
  | cons c l ih =>
    cases hq : q c
    · simp [List.dropWhile_cons, hq]
    · simp [List.dropWhile_cons, hq, List.filter_cons, h c hq, ih]

lemma filter_trimList (p : Char → Bool) (h : ∀ c, jsWhitespace c = true → p c = false)
    (l : List Char) : (trimList l).filter p = l.filter p := by
  unfold trimList
  rw [List.filter_reverse, filter_dropWhile_of_imp h, List.filter_reverse,
    List.reverse_reverse, filter_dropWhile_of_imp h]

/-- The trim step of the message normalisation is absorbed by the
alphanumeric strip, so both the message side and the (store plus dispatch)
keyword side reduce to strip after fold. -/
lemma cleanMessageText_eq (s : String) :
    cleanMessageText s = stripNonAlnum (jsToLower s) := by
  unfold cleanMessageText stripNonAlnum jsTrim jsToLower
  exact congrArg String.mk (filter_trimList isAlnumAscii jsWhitespace_not_alnum _)

lemma map_lowerChar_fix (p : Char → Bool) (l : List Char) :
    ((l.map lowerChar).filter p).map lowerChar = (l.map lowerChar).filter p := by
  have h : ∀ c ∈ (l.map lowerChar).filter p, lowerChar c = c := by
    intro c hc
    obtain ⟨y, _, rfl⟩ := List.mem_map.mp (List.mem_of_mem_filter hc)
    exact lowerChar_idem y
  rw [List.map_congr_left h]
  exact List.map_id _

lemma listClean_idem (l : List Char) :
    ((((l.map lowerChar).filter isAlnumAscii).map lowerChar).filter isAlnumAscii) =
      (l.map lowerChar).filter isAlnumAscii := by
  rw [map_lowerChar_fix]
  exact List.filter_eq_self.mpr (fun a ha => (List.mem_filter.mp ha).2)

lemma cleanMessageText_idem (s : String) :
    cleanMessageText (cleanMessageText s) = cleanMessageText s := by
  rw [cleanMessageText_eq, cleanMessageText_eq]
  unfold stripNonAlnum jsToLower
  exact congrArg String.mk (listClean_idem s.data)

/-- The pro regex loop with its continue and break control flow equals:
find the first trigger that fires, then emit its single send. -/
lemma proPass_find_char (eng : RegexEngine) (cb : Callback) (sender text : String)
    (pros : List ProTrigger) :
    proPass eng cb sender text pros =
      match pros.find? (proFires eng sender text) with
      | some t => [proActFor eng cb sender text t]
      | none => [] := by
  induction pros with
  | nil => rfl
  | cons t rest ih =>
    cases h1 : eng.compiles t.regex <;>
      cases h2 : (allowedNumbersOf t).contains sender <;>
        cases h3 : eng.test t.regex text <;>
          simp at h2 <;>
            simp [proPass, List.find?, proFires, h1, h2, h3, ih]

lemma proPass_length_le (eng : RegexEngine) (cb : Callback) (sender text : String)
    (pros : List ProTrigger) : (proPass eng cb sender text pros).length ≤ 1 := by
  rw [proPass_find_char]
  cases pros.find? (proFires eng sender text) <;> simp

lemma isProAct_proActFor (eng : RegexEngine) (cb : Callback) (sender text : String)
    (t : ProTrigger) : ∃ r, proActFor eng cb sender text t = Act.proReply sender r := by
  unfold proActFor
  cases cb t.callback_url (proPayload eng text t) with
  | ok r => exact ⟨r, rfl⟩
  | error e => exact ⟨proErrorText, rfl⟩

lemma proPass_all_pro (eng : RegexEngine) (cb : Callback) (sender text : String)
    (pros : List ProTrigger) :
    ∀ a ∈ proPass eng cb sender text pros, ∃ r, a = Act.proReply sender r := by
  rw [proPass_find_char]
  cases h : pros.find? (proFires eng sender text) with
  | none => intro a ha; simp at ha
  | some t =>
    intro a ha
    simp at ha
    obtain ⟨r, hr⟩ := isProAct_proActFor eng cb sender text t
    exact ⟨r, ha ▸ hr⟩

lemma autoLoop_some_auto (sender lowerText : String) (replies : List AutoReply)
    (a : Act) (h : autoLoop sender lowerText replies = some a) :
    ∃ r, a = Act.autoReply sender r := by
  induction replies with
  | nil => simp [autoLoop] at h
  | cons q rest ih =>
    by_cases hq : stripNonAlnum lowerText = stripNonAlnum q.keyword
    · simp [autoLoop, hq] at h
      exact ⟨q.reply, h.symm⟩
    · simp only [autoLoop, if_neg hq] at h
      exact ih h

lemma genericPass_char (eng : RegexEngine) (cb : Callback)
    (triggers : List RegexTrigger) (sender text : String) :
    genericPass eng cb triggers sender text = [] ∨
      ∃ r, genericPass eng cb triggers sender text = [Act.genericReply sender r] := by
  rcases hb : bestMatchOf eng triggers text with _ | best
  · exact Or.inl (by simp [genericPass, hb])
  · rcases hf : eng.firstMatch best.regex text with _ | k
    · exact Or.inr ⟨genericErrorText, by simp [genericPass, hb, hf]⟩
    · rcases hc : cb best.callback_url
          { keyword := some k, name := best.name, pattern := best.regex } with e | r
      · exact Or.inr ⟨genericErrorText, by simp [genericPass, hb, hf, hc]⟩
      · exact Or.inr ⟨r, by simp [genericPass, hb, hf, hc]⟩

lemma maxRegexLen_cons (t : RegexTrigger) (l : List RegexTrigger) :
    maxRegexLen (t :: l) = max t.regex.length (maxRegexLen l) := rfl

/-- The JavaScript reduce with the strict greater than comparison selects
the first element of maximal regex length. -/
lemma foldl_pickLonger_eq (l : List RegexTrigger) : ∀ a : RegexTrigger,
    some (l.foldl pickLonger a) =
      (a :: l).find? (fun t => t.regex.length == maxRegexLen (a :: l)) := by
  induction l with
  | nil =>
    intro a
    rw [List.foldl_nil, List.find?_cons_of_pos]
    simp [maxRegexLen]
  | cons b l2 ih =>
    intro a
    rw [List.foldl_cons]
    rw [ih (pickLonger a b)]
    by_cases h : b.regex.length > a.regex.length
    · have hp : pickLonger a b = b := if_pos h
      rw [hp]
      have hM : maxRegexLen (b :: l2) = maxRegexLen (a :: b :: l2) := by
        simp only [maxRegexLen_cons]; omega
      rw [hM]
      have ha : ¬ ((fun t : RegexTrigger =>
          t.regex.length == maxRegexLen (a :: b :: l2)) a = true) := by
        simp only [maxRegexLen_cons, beq_iff_eq]; omega
      rw [List.find?_cons_of_neg
        (p := fun t : RegexTrigger => t.regex.length == maxRegexLen (a :: b :: l2))
        (b :: l2) ha]
    · have hp : pickLonger a b = a := if_neg h
      rw [hp]
      have hM : maxRegexLen (a :: l2) = maxRegexLen (a :: b :: l2) := by
        simp only [maxRegexLen_cons]; omega
      rw [hM]
      by_cases ha : a.regex.length = maxRegexLen (a :: b :: l2)
      · rw [List.find?_cons_of_pos _ (by simpa using ha),
          List.find?_cons_of_pos _ (by simpa using ha)]
      · have hb : ¬ ((fun t : RegexTrigger =>
            t.regex.length == maxRegexLen (a :: b :: l2)) b = true) := by
          simp only [beq_iff_eq]
          simp only [maxRegexLen_cons] at ha ⊢
          omega
        have ha2 : ¬ ((fun t : RegexTrigger =>
            t.regex.length == maxRegexLen (a :: b :: l2)) a = true) := by
          simpa using ha
        rw [List.find?_cons_of_neg
          (p := fun t : RegexTrigger => t.regex.length == maxRegexLen (a :: b :: l2))
          l2 ha2,
          List.find?_cons_of_neg
          (p := fun t : RegexTrigger => t.regex.length == maxRegexLen (a :: b :: l2))
          (b :: l2) ha2,
          List.find?_cons_of_neg
          (p := fun t : RegexTrigger => t.regex.length == maxRegexLen (a :: b :: l2))
          l2 hb]

/-- reduceBest equals: first matched trigger whose pattern length is the
maximum pattern length of the matched list. -/
lemma reduceBest_char (l : List RegexTrigger) :
    reduceBest l = l.find? (fun t => t.regex.length == maxRegexLen l) := by
  cases l with
  | nil => rfl
  | cons m ms => exact foldl_pickLonger_eq ms m

lemma lookupK_eraseK_self {α : Type} (l : List (String × α)) (k : String) :
    lookupK (eraseK l k) k = none := by
  induction l with
  | nil => rfl
  | cons p l ih =>
    by_cases h : p.1 = k
    · simp only [eraseK, List.filter_cons, h, bne_self_eq_false, Bool.false_eq_true,
        if_false, reduceIte]
      exact ih
    · have hb : (p.1 != k) = true := by simpa using h
      have hbeq : (p.1 == k) = false := by simpa using h
      simp only [eraseK, List.filter_cons, hb, if_true, reduceIte]
      simp only [lookupK, List.find?, hbeq]
      exact ih

lemma lookupK_setK_self {α : Type} (l : List (String × α)) (k : String) (v : α) :
    lookupK (setK l k v) k = some v := by
  simp [lookupK, setK, List.find?]

lemma verifyApiKey_of_absent (sessions : List (String × String)) (sessionId : String)
    (h : lookupK sessions sessionId = none) (apiKey : Option String) :
    verifyApiKey sessions sessionId apiKey = AuthResult.unauthorized := by
  unfold verifyApiKey
  cases apiKey with
  | none => rfl
  | some k =>
    by_cases hk : k = ""
    · simp [hk]
    · simp [hk, h]

lemma digitsOf_all_digits (s : String) : (digitsOf s).data.all Char.isDigit = true := by
  unfold digitsOf
  simp only [List.all_eq_true]
  intro c hc
  exact List.of_mem_filter hc

lemma formatNumber_none_iff (s : String) :
    formatNumber s = none ↔
      ¬ (10 ≤ (digitsOf s).length ∧ (digitsOf s).length ≤ 15) := by
  unfold formatNumber
  by_cases h : 10 ≤ (digitsOf s).length ∧ (digitsOf s).length ≤ 15
  · rw [if_pos ⟨h.1, h.2, digitsOf_all_digits s⟩]
    simp [h]
  · rw [if_neg (by
      intro hc
      exact h ⟨hc.1, hc.2.1⟩)]
    simp [h]

lemma formatNumber_some_of (s : String) (h1 : 10 ≤ (digitsOf s).length)
    (h2 : (digitsOf s).length ≤ 15) :
    formatNumber s = some (digitsOf s ++ "@s.whatsapp.net") := by
  unfold formatNumber
  rw [if_pos ⟨h1, h2, digitsOf_all_digits s⟩]

lemma autoPass_some_auto (replies : List AutoReply) (sender text : String) (a : Act)
    (h : autoPass replies sender text = some a) :
    ∃ r, a = Act.autoReply sender r := by
  unfold autoPass at h
  exact autoLoop_some_auto _ _ _ _ h

lemma proPass_filter_pro (eng : RegexEngine) (cb : Callback) (sender text : String)
    (pros : List ProTrigger) :
    (proPass eng cb sender text pros).filter isProAct =
      proPass eng cb sender text pros := by
  rw [List.filter_eq_self]
  intro a ha
  obtain ⟨r, rfl⟩ := proPass_all_pro eng cb sender text pros a ha
  rfl

lemma proPass_filter_nonpro (eng : RegexEngine) (cb : Callback) (sender text : String)
    (pros : List ProTrigger) :
    (proPass eng cb sender text pros).filter (fun a => !isProAct a) = [] := by
  rw [List.filter_eq_nil_iff]
  intro a ha
  obtain ⟨r, rfl⟩ := proPass_all_pro eng cb sender text pros a ha
  simp [isProAct]

/--
C1: the claim states that at most one of the three tiers produces an
outbound action per inbound message and that a firing pro regex trigger
suppresses the auto reply and generic regex tiers.  In the source the pro
loop ends with break, not with a return from the handler
(src/unnamed/part_002 line 268), so after a pro trigger fires the auto
reply pass still runs (and, when it does not match, the generic pass too).
This concrete dispatch fires the pro tier and the auto reply tier on the
same message, producing two outbound actions.
-/
theorem claim_C1_counterexample :
    dispatch engAll cbOk [proT0] [ar0] [] sender0 "hello" =
      [Act.proReply sender0 "pong", Act.autoReply sender0 "hi there"] ∧
    ¬ ((dispatch engAll cbOk [proT0] [ar0] [] sender0 "hello").length ≤ 1) := by
  constructor
  · decide
  · decide

/--
C1 (amended): per inbound message the pro regex tier produces at most one
action, the auto reply and generic regex tiers together produce at most one
action, every pro action precedes every other action, and at most two
outbound actions are produced in total.  A firing pro trigger does not
suppress the later tiers.
-/
theorem claim_C1_amended (eng : RegexEngine) (cb : Callback) (pros : List ProTrigger)
    (replies : List AutoReply) (triggers : List RegexTrigger) (sender text : String) :
    ((dispatch eng cb pros replies triggers sender text).filter isProAct).length ≤ 1 ∧
    ((dispatch eng cb pros replies triggers sender text).filter
        (fun a => !isProAct a)).length ≤ 1 ∧
    (dispatch eng cb pros replies triggers sender text).length ≤ 2 ∧
    dispatch eng cb pros replies triggers sender text =
      (dispatch eng cb pros replies triggers sender text).filter isProAct ++
        (dispatch eng cb pros replies triggers sender text).filter
          (fun a => !isProAct a) := by
  have hlen := proPass_length_le eng cb sender text pros
  cases hA : autoPass replies sender text with
  | some a =>
    obtain ⟨r, rfl⟩ := autoPass_some_auto replies sender text a hA
    have hd : dispatch eng cb pros replies triggers sender text =
        proPass eng cb sender text pros ++ [Act.autoReply sender r] := by
      unfold dispatch
      rw [hA]
    rw [hd]
    simp only [List.filter_append, proPass_filter_pro, proPass_filter_nonpro,
      List.length_append]
    simp [isProAct]
    omega
  | none =>
    rcases genericPass_char eng cb triggers sender text with hG | ⟨r, hG⟩
    · have hd : dispatch eng cb pros replies triggers sender text =
          proPass eng cb sender text pros := by
        unfold dispatch
        rw [hA, hG, List.append_nil]
      rw [hd]
      simp only [proPass_filter_pro, proPass_filter_nonpro]
      exact ⟨hlen, by simp, by omega, by simp⟩
    · have hd : dispatch eng cb pros replies triggers sender text =
          proPass eng cb sender text pros ++ [Act.genericReply sender r] := by
        unfold dispatch
        rw [hA, hG]
      rw [hd]
      simp only [List.filter_append, proPass_filter_pro, proPass_filter_nonpro,
        List.length_append]
      simp [isProAct]
      omega

/--
C2: in the generic regex pass, among all triggers whose pattern matches the
inbound text, the selected trigger (the reduce over
b.regex.length > a.regex.length) is exactly the first trigger of the matched
collection whose pattern string length equals the maximal pattern string
length, hence the strictly longest pattern wins and ties go to the earliest
stored trigger.
-/
theorem claim_C2 (eng : RegexEngine) (triggers : List RegexTrigger) (text : String) :
    bestMatchOf eng triggers text =
      (matchedTriggersOf eng triggers text).find?
        (fun t => t.regex.length == maxRegexLen (matchedTriggersOf eng triggers text)) := by
  unfold bestMatchOf
  exact reduceBest_char (matchedTriggersOf eng triggers text)

/--
C3: the pro regex pass acts exactly on the first stored trigger that fires
for the sender and text (pattern compiles, allow list contains the sender,
pattern tests true); when such a trigger exists it produces that single
send, otherwise nothing, so no later matching trigger ever fires.
-/
theorem claim_C3 (eng : RegexEngine) (cb : Callback) (pros : List ProTrigger)
    (sender text : String) :
    proPass eng cb sender text pros =
      match pros.find? (proFires eng sender text) with
      | some t => [proActFor eng cb sender text t]
      | none => [] :=
  proPass_find_char eng cb sender text pros

/--
C4: a pro regex trigger whose allow list does not contain the sender never
wins the pro pass for a message from that sender, whatever its pattern does.
-/
theorem claim_C4 (eng : RegexEngine) (pros : List ProTrigger) (sender text : String)
    (t : ProTrigger) (h : (allowedNumbersOf t).contains sender = false) :
    pros.find? (proFires eng sender text) ≠ some t := by
  intro hfind
  have hf : proFires eng sender text t = true := List.find?_some hfind
  unfold proFires at hf
  simp only [Bool.and_eq_true] at hf
  rw [hf.1.2] at h
  exact Bool.noConfusion h

/-- Witness for C4 at a concrete input: the single trigger has an allow list
that normalises to the empty list, so it never wins. -/
theorem claim_C4_witness :
    [proT1].find? (proFires engAll "1234567890@s.whatsapp.net" "x") ≠ some proT1 :=
  claim_C4 engAll [proT1] "1234567890@s.whatsapp.net" "x" proT1 (by decide)

/--
C5: the auto reply normalisation (case fold, trim, strip non alphanumerics
on the message side; case fold at store time then strip at match time on the
keyword side) is idempotent, both sides reduce to the same normal form
strip after fold, and the stored rule with keyword hithere matches the
inbound message Hi There with punctuation and mixed case.
-/
theorem claim_C5 :
    (∀ s, cleanMessageText (cleanMessageText s) = cleanMessageText s) ∧
    (∀ s, cleanMessageText s = stripNonAlnum (jsToLower s)) ∧
    autoPass (postAutoReplies [{ keyword := "hithere", reply := "hi!" }]) sender0
        "Hi There!" = some (Act.autoReply sender0 "hi!") :=
  ⟨cleanMessageText_idem, cleanMessageText_eq, by decide⟩

/--
C6: the claim states that both callback tiers fall back to the fixed string
with no trailing sentence.  The generic regex tier catch
(src/unnamed/part_002 lines 325-327) sends a different string that appends
Please try again, as this concrete failing dispatch shows.
-/
theorem claim_C6_counterexample :
    dispatch engAll cbFail [] [] [rt0] sender0 "order123" =
      [Act.genericReply sender0 "❌ Error processing your request. Please try again."] ∧
    "❌ Error processing your request. Please try again." ≠
      "❌ Error processing your request." := by
  constructor
  · decide
  · decide

/--
C6 (amended): a callback failure in the pro tier yields the send of the
fixed pro fallback string, a callback failure in the generic tier yields the
send of the fixed generic fallback string (which appends Please try again),
and a pro tier callback failure never aborts the pipeline: the auto reply
pass still runs and its action follows the fallback send.
-/
theorem claim_C6_amended (eng : RegexEngine) (cb : Callback) (pros : List ProTrigger)
    (replies : List AutoReply) (triggers : List RegexTrigger) (sender text : String) :
    (∀ t, pros.find? (proFires eng sender text) = some t →
      cb t.callback_url (proPayload eng text t) = Except.error () →
      proPass eng cb sender text pros = [Act.proReply sender proErrorText]) ∧
    (∀ b k, bestMatchOf eng triggers text = some b →
      eng.firstMatch b.regex text = some k →
      cb b.callback_url { keyword := some k, name := b.name, pattern := b.regex } =
        Except.error () →
      genericPass eng cb triggers sender text =
        [Act.genericReply sender genericErrorText]) ∧
    (∀ t a, pros.find? (proFires eng sender text) = some t →
      cb t.callback_url (proPayload eng text t) = Except.error () →
      autoPass replies sender text = some a →
      dispatch eng cb pros replies triggers sender text =
        [Act.proReply sender proErrorText, a]) := by
  refine ⟨?_, ?_, ?_⟩
  · intro t h hcb
    rw [proPass_find_char, h]
    simp [proActFor, hcb]
  · intro b k hb hk hcb
    simp [genericPass, hb, hk, hcb]
  · intro t a h hcb hA
    unfold dispatch
    rw [hA, proPass_find_char, h]
    simp [proActFor, hcb]

/-- Witness for C6 at concrete inputs where both callbacks fail. -/
theorem claim_C6_witness :
    proPass engAll cbFail sender0 "hello" [proT0] =
      [Act.proReply sender0 proErrorText] ∧
    genericPass engAll cbFail [rt0] sender0 "hello" =
      [Act.genericReply sender0 genericErrorText] :=
  ⟨(claim_C6_amended engAll cbFail [proT0] [] [rt0] sender0 "hello").1 proT0
      (by decide) rfl,
   (claim_C6_amended engAll cbFail [proT0] [] [rt0] sender0 "hello").2.1 rt0 "m"
      (by decide) rfl rfl⟩

/--
C7: sendText returns 409 exactly when the session is not connected, 400
exactly when connected but the to field does not normalise, a number
normalises exactly when its digits after stripping non digits count 10 to
15, and on success the recipient jid is the stripped digits followed by
@s.whatsapp.net.
-/
theorem claim_C7 (isConnected : Bool) (toNumber text : String) :
    (sendTextHandler isConnected toNumber text = SendTextResult.notConnected ↔
      isConnected = false) ∧
    (sendTextHandler isConnected toNumber text = SendTextResult.invalidNumber ↔
      (isConnected = true ∧ formatNumber toNumber = none)) ∧
    (formatNumber toNumber = none ↔
      ¬ (10 ≤ (digitsOf toNumber).length ∧ (digitsOf toNumber).length ≤ 15)) ∧
    ((isConnected = true ∧ 10 ≤ (digitsOf toNumber).length ∧
        (digitsOf toNumber).length ≤ 15) →
      sendTextHandler isConnected toNumber text =
        SendTextResult.sent (digitsOf toNumber ++ "@s.whatsapp.net") text) := by
  refine ⟨?_, ?_, formatNumber_none_iff toNumber, ?_⟩
  · cases isConnected with
    | false => simp [sendTextHandler]
    | true =>
      cases hf : formatNumber toNumber with
      | none => simp [sendTextHandler, hf]
      | some jid => simp [sendTextHandler, hf]
  · cases isConnected with
    | false => simp [sendTextHandler]
    | true =>
      cases hf : formatNumber toNumber with
      | none => simp [sendTextHandler, hf]
      | some jid => simp [sendTextHandler, hf]
  · rintro ⟨hc, h1, h2⟩
    subst hc
    simp [sendTextHandler, formatNumber_some_of toNumber h1 h2]

/-- Witness for C7 at a concrete connected session and a formatted United
States number with punctuation. -/
theorem claim_C7_witness :
    sendTextHandler true "+1 (234) 567-8901" "yo" =
      SendTextResult.sent "12345678901@s.whatsapp.net" "yo" :=
  ((claim_C7 true "+1 (234) 567-8901" "yo").2.2.2 ⟨rfl, by decide, by decide⟩).trans
    (by decide)

/--
C8: the claim states that after DELETE the status query reports not
connected and the rule collections are cleared.  On the concrete state st0,
after the delete the three in memory rule registries still contain every
rule of s1 (the route never touches them, src/unnamed/part_002 lines
676-693), and a status query answers 401 Unauthorized rather than a not
connected report, because the registered credential was removed.
-/
theorem claim_C8_counterexample :
    lookupK (deleteSessionRoute st0 "s1").autoRepliesMem "s1" = some [ar0] ∧
    lookupK (deleteSessionRoute st0 "s1").regexTriggersMem "s1" = some [rt0] ∧
    lookupK (deleteSessionRoute st0 "s1").regexTriggersProMem "s1" = some [proT0] ∧
    statusRoute (deleteSessionRoute st0 "s1") "s1" (some "k1") =
      StatusResult.unauthorized ∧
    StatusResult.unauthorized ≠ StatusResult.ok false := by
  refine ⟨by decide, by decide, by decide, by decide, by decide⟩

/--
C8 (amended): DELETE removes the session from the credential registry, the
socket registry and the on disk auth directory (so its rule files are gone
and no socket remains to dispatch messages), and every subsequent status
query is rejected 401 whatever key is supplied; the in memory rule
collections are not cleared by the delete itself, but on the next connection
open they are reloaded from the now absent files and so become empty.
-/
theorem claim_C8_amended (st : ServerState) (sessionId : String)
    (apiKey : Option String) :
    lookupK (deleteSessionRoute st sessionId).sessions sessionId = none ∧
    lookupK (deleteSessionRoute st sessionId).socketsConn sessionId = none ∧
    lookupK (deleteSessionRoute st sessionId).authDirs sessionId = none ∧
    statusRoute (deleteSessionRoute st sessionId) sessionId apiKey =
      StatusResult.unauthorized ∧
    (deleteSessionRoute st sessionId).autoRepliesMem = st.autoRepliesMem ∧
    (deleteSessionRoute st sessionId).regexTriggersMem = st.regexTriggersMem ∧
    (deleteSessionRoute st sessionId).regexTriggersProMem = st.regexTriggersProMem ∧
    lookupK (loadRulesOnOpen (deleteSessionRoute st sessionId) sessionId).autoRepliesMem
      sessionId = some [] ∧
    lookupK (loadRulesOnOpen (deleteSessionRoute st sessionId) sessionId).regexTriggersMem
      sessionId = some [] ∧
    lookupK
      (loadRulesOnOpen (deleteSessionRoute st sessionId) sessionId).regexTriggersProMem
      sessionId = some [] := by
  have hs : lookupK (deleteSessionRoute st sessionId).sessions sessionId = none :=
    lookupK_eraseK_self st.sessions sessionId
  have hd : lookupK (deleteSessionRoute st sessionId).authDirs sessionId = none :=
    lookupK_eraseK_self st.authDirs sessionId
  refine ⟨hs, lookupK_eraseK_self st.socketsConn sessionId, hd, ?_, rfl, rfl, rfl,
    ?_, ?_, ?_⟩
  · unfold statusRoute
    rw [verifyApiKey_of_absent _ _ hs apiKey]
  · simp [loadRulesOnOpen, hd, lookupK_setK_self]
  · simp [loadRulesOnOpen, hd, lookupK_setK_self]
  · simp [loadRulesOnOpen, hd, lookupK_setK_self]

/--
C9: the claim states that a logged out close erases the persisted
credentials and schedules a fresh connection after a fixed delay.  The close
handler of src/unnamed/part_001 lines 137-148, one of the two cited
handlers, does neither on a logged out reason: it only logs and stops.
-/
theorem claim_C9_counterexample :
    closeHandlerLegacy (some disconnectReasonLoggedOut) =
      { clearAuthData := false, retryDelayMs := none } ∧
    ({ clearAuthData := false, retryDelayMs := none } : CloseBehavior) ≠
      { clearAuthData := true, retryDelayMs := some 3000 } := by
  refine ⟨by decide, by decide⟩

/--
C9 (amended): in the complete handler (src/unnamed/part_002) a logged out
or 401 close clears the auth directory and schedules a fresh connect after
3000 ms, and every other close reason schedules a reconnect after 5000 ms
reusing the stored credentials, with no attempt cap; in the legacy handler
(src/unnamed/part_001) the transient branch is the same unbounded 5000 ms
retry, but a logged out close clears nothing and schedules nothing.
-/
theorem claim_C9_amended (reason : Option Nat) :
    closeHandlerComplete (some disconnectReasonLoggedOut) =
      { clearAuthData := true, retryDelayMs := some 3000 } ∧
    (reason ≠ some disconnectReasonLoggedOut →
      closeHandlerComplete reason =
        { clearAuthData := false, retryDelayMs := some 5000 }) ∧
    (reason ≠ some disconnectReasonLoggedOut →
      closeHandlerLegacy reason =
        { clearAuthData := false, retryDelayMs := some 5000 }) ∧
    closeHandlerLegacy (some disconnectReasonLoggedOut) =
      { clearAuthData := false, retryDelayMs := none } := by
  refine ⟨by decide, ?_, ?_, by decide⟩
  · intro h
    have hn : ¬ (reason = some disconnectReasonLoggedOut ∨ reason = some 401) := by
      rintro (hc | hc)
      · exact h hc
      · refine h ?_
        rw [hc]
        rfl
    unfold closeHandlerComplete
    rw [if_neg hn]
  · intro h
    unfold closeHandlerLegacy
    rw [if_neg h]

/-- Witness for C9 at a concrete transient close reason (HTTP 408). -/
theorem claim_C9_witness :
    closeHandlerComplete (some 408) =
      { clearAuthData := false, retryDelayMs := some 5000 } ∧
    closeHandlerLegacy (some 408) =
      { clearAuthData := false, retryDelayMs := some 5000 } :=
  ⟨(claim_C9_amended (some 408)).2.1 (by decide),
   (claim_C9_amended (some 408)).2.2.1 (by decide)⟩

/--
C10: a request for a session identifier absent from the registry is
rejected 401 whatever credential is supplied, because the registered
credential is absent and can equal no supplied key, and a request whose key
differs from the registered one is rejected 401 as well.  The middleware
has no 404 outcome at all.
-/
theorem claim_C10 (sessions : List (String × String)) (sessionId : String)
    (apiKey : Option String) :
    (lookupK sessions sessionId = none →
      verifyApiKey sessions sessionId apiKey = AuthResult.unauthorized) ∧
    (∀ registered k, lookupK sessions sessionId = some registered →
      apiKey = some k → k ≠ registered →
      verifyApiKey sessions sessionId apiKey = AuthResult.unauthorized) := by
  constructor
  · intro h
    exact verifyApiKey_of_absent sessions sessionId h apiKey
  · intro registered k h hk hne
    subst hk
    rcases eq_or_ne k "" with h0 | h0
    · simp [verifyApiKey, h0]
    · have hrk : ¬ registered = k := fun he => hne he.symm
      simp [verifyApiKey, h0, h, hrk]

/-- Witness for C10: an unknown session identifier with the correct key of
another session, and a known identifier with a wrong key. -/
theorem claim_C10_witness :
    verifyApiKey [("s1", "secret")] "ghost" (some "secret") =
      AuthResult.unauthorized ∧
    verifyApiKey [("s1", "secret")] "s1" (some "wrong") =
      AuthResult.unauthorized :=
  ⟨(claim_C10 [("s1", "secret")] "ghost" (some "secret")).1 (by decide),
   (claim_C10 [("s1", "secret")] "s1" (some "wrong")).2 "secret" "wrong"
      (by decide) rfl (by decide)⟩
